import Mathlib

/-
Verification of the floating IP scheduler plugin
(pkg/ipam/schedulerplugin/floatingip_plugin.go).

The embedding translates the plugin functions from the Go source.  The
IPAM facade, the owner key helpers and the JSON boundary are not part of
the provided sources; they are modelled from the specification and each
such definition carries a doc comment saying so.  IP addresses are
natural numbers and a routable subnet is a contiguous range of
addresses.
-/

namespace Galaxy

/-- LabelMap is an association list from label key to label value. -/
abbrev LabelMap := List (String × String)

/-- lookupKey finds the value stored under a key in an association list. -/
def lookupKey {α : Type} (k : String) : List (String × α) → Option α
  | [] => none
  | p :: rest => if p.fst = k then some p.snd else lookupKey k rest

/-- selMatches models labels.SelectorFromSet followed by Selector.Matches:
every required label equality of the selector must hold in the map. -/
def selMatches (sel : LabelMap) (m : LabelMap) : Bool :=
  sel.all (fun kv => decide (lookupKey kv.fst m = some kv.snd))

/-- objectSelector is built in initSelector: pods want a floating IP when
labelled network=FLOATINGIP. -/
def objectSelector : LabelMap := [("network", "FLOATINGIP")]

/-- nodeSelector is built in initSelector: nodes support floating IPs when
labelled network=floatingip. -/
def nodeSelector : LabelMap := [("network", "floatingip")]

/-- fipInvariantSeletor is built in initSelector (source spelling kept):
pods labelled floatingip=invariant keep their IP across restarts. -/
def fipInvariantSeletor : LabelMap := [("floatingip", "invariant")]

/-- ANNOTATION_FLOATINGIP is the pod annotation key used by Bind. -/
def ANNOTATION_FLOATINGIP : String := "floatingip"

/-- Subnet models a routable subnet as a contiguous range of addresses. -/
structure Subnet where
  base : Nat
  size : Nat
  deriving DecidableEq, Repr

/-- containsIp decides membership of an address in a subnet range. -/
def Subnet.containsIp (s : Subnet) (ip : Nat) : Bool :=
  decide (s.base ≤ ip ∧ ip < s.base + s.size)

/-- Record is one durable allocation row: ip, its subnet, and the owner
key, where the empty key means free. -/
structure Record where
  ip : Nat
  subnet : Subnet
  key : String
  deriving DecidableEq, Repr

/-- FloatingIPDef is one pool definition: a routable subnet together with
its allocatable addresses. -/
structure FloatingIPDef where
  subnet : Subnet
  ips : List Nat
  deriving DecidableEq, Repr

/-- IPAMState is the durable allocator state.  The allocLog field is a
trace of AllocateInSubnet invocations, recorded so that theorems can
speak about whether an allocation was attempted. -/
structure IPAMState where
  subnets : List Subnet
  records : List Record
  allocLog : List (String × Option Subnet)
  deriving DecidableEq, Repr

/-- emptyIPAM is the state before any pool has been configured. -/
def emptyIPAM : IPAMState := { subnets := [], records := [], allocLog := [] }

/-- minByIp selects the record with the smallest ip, the deterministic
lexicographic choice required of the store. -/
def minByIp : List Record → Option Record
  | [] => none
  | r :: rs =>
    match minByIp rs with
    | none => some r
    | some m => some (if r.ip ≤ m.ip then r else m)

/-- Modelled from the spec: IPAM.QueryFirst returns the record with the
smallest IP currently owned by the key; the IPAM implementation is not
among the provided sources. -/
def QueryFirst (st : IPAMState) (key : String) : Option Record :=
  minByIp (st.records.filter (fun r => decide (r.key = key)))

/-- Modelled from the spec: IPAM.QueryRoutableSubnetByKey returns the
subnets in which the key holds at least one IP; with the empty key it
returns the subnets having at least one free IP.  The IPAM
implementation is not among the provided sources. -/
def QueryRoutableSubnetByKey (st : IPAMState) (key : String) : List Subnet :=
  if key = "" then
    (st.records.filter (fun r => decide (r.key = ""))).map (fun r => r.subnet)
  else
    (st.records.filter (fun r => decide (r.key = key))).map (fun r => r.subnet)

/-- Modelled from the spec: IPAM.RoutableSubnet returns the configured
routable subnet containing the address, if any.  The IPAM implementation
is not among the provided sources. -/
def RoutableSubnet (st : IPAMState) (ip : Nat) : Option Subnet :=
  st.subnets.find? (fun s => s.containsIp ip)

/-- Modelled from the spec: IPAM.AllocateInSubnet fails with
ErrAlreadyAllocated when the key already owns an IP, otherwise claims the
smallest free IP of the subnet or fails with ErrNoEnoughIP.  The call is
recorded in allocLog.  The IPAM implementation is not among the provided
sources. -/
def AllocateInSubnet (st : IPAMState) (key : String) (subnet : Option Subnet) :
    Except String Nat × IPAMState :=
  let logged : IPAMState := { st with allocLog := st.allocLog ++ [(key, subnet)] }
  match QueryFirst logged key with
  | some _ => (.error "ErrAlreadyAllocated", logged)
  | none =>
    match minByIp (logged.records.filter (fun r => decide (r.key = "" ∧ some r.subnet = subnet))) with
    | none => (.error "ErrNoEnoughIP", logged)
    | some r =>
      (.ok r.ip,
        { logged with
            records := logged.records.map (fun q => if q.ip = r.ip then { q with key := key } else q) })

/-- Modelled from the spec: IPAM.Release frees every record owned by one
of the keys.  The IPAM implementation is not among the provided
sources. -/
def Release (st : IPAMState) (keys : List String) : IPAMState :=
  { st with records := st.records.map (fun r => if r.key ∈ keys then { r with key := "" } else r) }

/-- Modelled from the spec: IPAM.ConfigurePool validates that pool
definitions do not overlap on IP ranges (ConfigError otherwise), then
reconciles the records: IPs of the new pool keep their owner when they
had one, owned records outside the new pool are retained as orphans.
The IPAM implementation is not among the provided sources. -/
def ConfigurePool (st : IPAMState) (defs : List FloatingIPDef) : Except String IPAMState :=
  let allIps := (defs.map (fun d => d.ips)).flatten
  if ¬ allIps.Nodup then .error "ConfigError"
  else
    let newRecords :=
      (defs.map (fun d => d.ips.map (fun ip =>
        ({ ip := ip, subnet := d.subnet,
           key := ((st.records.find? (fun r => decide (r.ip = ip ∧ r.key ≠ ""))).map
             (fun r => r.key)).getD "" } : Record)))).flatten
    let orphans := st.records.filter (fun r => decide (r.key ≠ "" ∧ r.ip ∉ allIps))
    .ok { subnets := defs.map (fun d => d.subnet),
          records := newRecords ++ orphans,
          allocLog := st.allocLog }

/-- NodeAddress is one entry of a node address list; the ip field holds
the already parsed address, none standing for the nil result of
net.ParseIP on a malformed address. -/
structure NodeAddress where
  typ : String
  ip : Option Nat
  deriving DecidableEq, Repr

/-- NodeInternalIP is the address type the plugin looks for. -/
def NodeInternalIP : String := "InternalIP"

/-- Node carries the fields of v1.Node used by the plugin. -/
structure Node where
  name : String
  labels : Option LabelMap
  addresses : List NodeAddress
  deriving DecidableEq, Repr

/-- getNodeIP returns the parsed address of the first internal address of
the node, as in the source. -/
def getNodeIP (node : Node) : Option Nat :=
  match node.addresses.find? (fun a => decide (a.typ = NodeInternalIP)) with
  | some a => a.ip
  | none => none

/-- NodeSubnetCache is the node name to subnet cache of the plugin. -/
abbrev NodeSubnetCache := List (String × Subnet)

/-- getNodeSubnet mirrors the source: consult the cache, else derive the
subnet from the node internal IP.  The returned cache reflects exactly
the writes the source performs to the map, namely none. -/
def getNodeSubnet (cache : NodeSubnetCache) (st : IPAMState) (node : Node) :
    Except String Subnet × NodeSubnetCache :=
  match lookupKey node.name cache with
  | some subnet => (.ok subnet, cache)
  | none =>
    match getNodeIP node with
    | none => (.error "FloatingIPPlugin:UnknowNode", cache)
    | some nodeIP =>
      match RoutableSubnet st nodeIP with
      | some ipNet => (.ok ipNet, cache)
      | none => (.error "FloatingIPPlugin:NoFIPConfigNode", cache)

/-- queryNodeSubnet mirrors the source, returning a Go style value and
error pair.  The fetched argument stands for the orchestrator node fetch
with its retry loop collapsed; the returned cache reflects exactly the
writes the source performs to the map, namely none. -/
def queryNodeSubnet (cache : NodeSubnetCache) (st : IPAMState) (fetched : Except String Node)
    (nodeName : String) : (Option Subnet × Option String) × NodeSubnetCache :=
  match lookupKey nodeName cache with
  | some subnet => ((some subnet, none), cache)
  | none =>
    match fetched with
    | .error e => ((none, some e), cache)
    | .ok node =>
      match getNodeIP node with
      | none => ((none, some "FloatingIPPlugin:UnknowNode"), cache)
      | some nodeIP =>
        match RoutableSubnet st nodeIP with
        | some ipNet => ((some ipNet, none), cache)
        | none => ((none, some "FloatingIPPlugin:NoFIPConfigNode"), cache)

/-- Pod carries the fields of v1.Pod used by the plugin. -/
structure Pod where
  name : String
  ns : String
  labels : Option LabelMap
  phase : String
  reason : String
  deriving DecidableEq, Repr

/-- labelsOf turns the optional label map into the empty set when nil,
as labels.Set does in Go. -/
def labelsOf (l : Option LabelMap) : LabelMap := l.getD []

/-- Modelled from the spec: the owner key of a plain pod is
namespace_podname; the keyInDB helper is not among the provided
sources. -/
def keyInDB (pod : Pod) : String := pod.ns ++ "_" ++ pod.name

/-- Modelled from the spec: fmtKey builds the owner key from the bind
arguments, namespace_podname; the helper is not among the provided
sources. -/
def fmtKey (name ns : String) : String := ns ++ "_" ++ name

/-- wantedObject returns false for a nil label map and otherwise checks
the object selector, as in the source. -/
def wantedObject (pod : Pod) : Bool :=
  match pod.labels with
  | none => false
  | some m => selMatches objectSelector m

/-- evicted checks phase Failed with reason Evicted, as in the source. -/
def evicted (pod : Pod) : Bool :=
  decide (pod.phase = "Failed" ∧ pod.reason = "Evicted")

/-- FailedNodesMap is the per node rejection map of Filter. -/
abbrev FailedNodesMap := List (String × String)

/-- failedInsert reproduces the Go map writes when the list of nodes is
folded from the right: the surviving value for a name is the one written
by the last node carrying that name. -/
def failedInsert (k v : String) (m : FailedNodesMap) : FailedNodesMap :=
  match lookupKey k m with
  | some _ => m
  | none => (k, v) :: m

/-- filterLoop is the per node loop of Filter: reject unlabelled nodes,
reject nodes whose subnet resolution fails with that error, accept nodes
whose subnet is in the queried set and reject the rest with NoFIPLeft. -/
def filterLoop (st : IPAMState) (cache : NodeSubnetCache) (subnets : List Subnet) :
    List Node → List Node × FailedNodesMap
  | [] => ([], [])
  | node :: rest =>
    let res := filterLoop st cache subnets rest
    if ¬ selMatches nodeSelector (labelsOf node.labels) then
      (res.fst, failedInsert node.name "FloatingIPPlugin:UnlabelNode" res.snd)
    else
      match (getNodeSubnet cache st node).fst with
      | .error e => (res.fst, failedInsert node.name e res.snd)
      | .ok subnet =>
        if subnet ∈ subnets then (node :: res.fst, res.snd)
        else (res.fst, failedInsert node.name "FloatingIPPlugin:NoFIPLeft" res.snd)

/-- filterSubnets is the two phase subnet query of Filter: subnets
already owning an IP for the key, else all subnets with a free IP. -/
def filterSubnets (st : IPAMState) (key : String) : List Subnet :=
  let subnets := QueryRoutableSubnetByKey st key
  if subnets = [] then QueryRoutableSubnetByKey st "" else subnets

/-- Filter mirrors the source.  The modelled IPAM queries are total, so
the error component is always none. -/
def Filter (st : IPAMState) (cache : NodeSubnetCache) (pod : Pod) (nodes : List Node) :
    List Node × FailedNodesMap × Option String :=
  if ¬ wantedObject pod then (nodes, [], none)
  else
    let res := filterLoop st cache (filterSubnets st (keyInDB pod)) nodes
    (res.fst, res.snd, none)

/-- serializeIPInfo stands for the JSON marshalling of the IPInfo; the
exact text does not matter, only that it is a function of the record. -/
def serializeIPInfo (r : Record) : String :=
  "ip:" ++ Nat.repr r.ip ++ ",subnet:" ++ Nat.repr r.subnet.base ++ "/" ++ Nat.repr r.subnet.size

/-- bindMap is the annotation map built at the end of allocateIP. -/
def bindMap (r : Record) : List (String × String) :=
  [(ANNOTATION_FLOATINGIP, serializeIPInfo r)]

/-- allocateIP mirrors the source: reuse the first record of the key if
one exists; otherwise call queryNodeSubnet, discard its error exactly as
the source does by overwriting err, call AllocateInSubnet on the
returned subnet value, and re-query the key. -/
def allocateIP (st : IPAMState) (cache : NodeSubnetCache) (fetched : Except String Node)
    (key nodeName : String) : Except String (List (String × String)) × IPAMState :=
  match QueryFirst st key with
  | some ipInfo => (.ok (bindMap ipInfo), st)
  | none =>
    let subnetAndErr := (queryNodeSubnet cache st fetched nodeName).fst
    let alloc := AllocateInSubnet st key subnetAndErr.fst
    match alloc.fst with
    | .error e => (.error e, alloc.snd)
    | .ok _ =>
      match QueryFirst alloc.snd key with
      | none => (.error ("nil floating ip for key " ++ key), alloc.snd)
      | some info => (.ok (bindMap info), alloc.snd)

/-- bindPatchIntervalMs is the merge patch retry interval of Bind. -/
def bindPatchIntervalMs : Nat := 300

/-- bindPatchTimeoutMs is the merge patch retry budget of Bind. -/
def bindPatchTimeoutMs : Nat := 20000

/-- bindPatchAttempts is the number of patch attempts PollImmediate can
make within the budget: one immediate attempt plus one per interval. -/
def bindPatchAttempts : Nat := bindPatchTimeoutMs / bindPatchIntervalMs + 1

/-- BindArgs carries the fields of ExtenderBindingArgs used by Bind. -/
structure BindArgs where
  podName : String
  podNamespace : String
  nodeName : String
  deriving DecidableEq, Repr

/-- Bind mirrors the source: allocate, then publish the annotation with a
merge patch retried over the budget; patchOk gives the outcome of each
attempt.  Whatever the patch outcome, the state after allocateIP is
returned unchanged: nothing is rolled back. -/
def Bind (st : IPAMState) (cache : NodeSubnetCache) (fetched : Except String Node)
    (patchOk : Nat → Bool) (args : BindArgs) : Except String Unit × IPAMState :=
  let key := fmtKey args.podName args.podNamespace
  let alloc := allocateIP st cache fetched key args.nodeName
  match alloc.fst with
  | .error e => (.error e, alloc.snd)
  | .ok _bind =>
    if (List.range bindPatchAttempts).any patchOk then (.ok (), alloc.snd)
    else (.error ("failed to update pod " ++ key), alloc.snd)

/-- UpdatePod mirrors the source, returning the pods pushed onto the
unreleased channel; the Go function always returns a nil error. -/
def UpdatePod (_oldPod newPod : Pod) : List Pod :=
  if ¬ wantedObject newPod then []
  else if evicted newPod then [newPod]
  else []

/-- RemovePod mirrors the source, returning the pods pushed onto the
unreleased channel; the Go function always returns a nil error. -/
def RemovePod (pod : Pod) : List Pod :=
  if ¬ wantedObject pod then []
  else [pod]

/-- releasePodIP mirrors the source: query the key and release it only
when a record exists; database errors are outside the model. -/
def releasePodIP (st : IPAMState) (key : String) : IPAMState :=
  match QueryFirst st key with
  | none => st
  | some _ => Release st [key]

/-- TApp carries the per instance status map of the indexed workload,
keyed by instance index. -/
structure TApp where
  statuses : List (String × String)
  deriving DecidableEq, Repr

/-- Modelled from the spec: TAppInstanceKey is the instance index label
key of the indexed workload type; its literal value is not among the
provided sources and does not matter. -/
def TAppInstanceKey : String := "tapp_instance_key"

/-- INSTANCE_KILLED is the killed instance status constant; the source
comment notes the value is Killed in one version and killed in another,
and compares case insensitively either way. -/
def INSTANCE_KILLED : String := "Killed"

/-- tappInstanceKilled mirrors the source case insensitive comparison. -/
def tappInstanceKilled (status : String) : Bool :=
  status.toLower = INSTANCE_KILLED.toLower

/-- UnbindStep describes the outcome of one unbind call: the release
path was invoked, the IP was retained, or the source indexed an empty
tapp list, which in Go is a panic. -/
inductive UnbindStep where
  | releaseInvoked
  | retained
  | indexOutOfBounds
  deriving DecidableEq, Repr

/-- unbind mirrors the source.  The tappsRes argument stands for the
GetPodTApps lookup.  When the invariant selector does not match or the
lookup fails, the release path runs; otherwise the head of the list is
taken, which for an empty list is the out of bounds branch; otherwise
the status entry at the pod instance index label decides. -/
def unbind (st : IPAMState) (pod : Pod) (tappsRes : Except String (List TApp)) :
    UnbindStep × IPAMState :=
  let key := keyInDB pod
  if ¬ selMatches fipInvariantSeletor (labelsOf pod.labels) then
    (.releaseInvoked, releasePodIP st key)
  else
    match tappsRes with
    | .error _ => (.releaseInvoked, releasePodIP st key)
    | .ok tapps =>
      match tapps with
      | [] => (.indexOutOfBounds, st)
      | tapp :: _ =>
        if tapp.statuses.any (fun p =>
            tappInstanceKilled p.snd &&
              decide (p.fst = (lookupKey TAppInstanceKey (labelsOf pod.labels)).getD "")) then
          (.releaseInvoked, releasePodIP st key)
        else (.retained, st)

/-- FetchResult is the outcome of fetching the floatingips key of the
configmap: client error, missing key, or the serialized value. -/
inductive FetchResult where
  | err (e : String)
  | missingKey
  | val (s : String)
  deriving DecidableEq, Repr

/-- WatcherState is the plugin state the configmap watcher touches.  The
cfgAttempts field counts ConfigurePool invocations so that theorems can
speak about whether a configuration was attempted. -/
structure WatcherState where
  lastFIPConf : String
  ipam : IPAMState
  cfgAttempts : Nat
  deriving DecidableEq, Repr

/-- initWatcherState is the state at plugin construction. -/
def initWatcherState : WatcherState :=
  { lastFIPConf := "", ipam := emptyIPAM, cfgAttempts := 0 }

/-- updateConfigMap mirrors the source: fetch, compare against
lastFIPConf, unmarshal, record the new value, then call ConfigurePool,
whose failure is only warned about while true is still returned.  The
parse argument stands for the JSON unmarshalling boundary. -/
def updateConfigMap (parse : String → Option (List FloatingIPDef)) (fetch : FetchResult)
    (s : WatcherState) : (Bool × Option String) × WatcherState :=
  match fetch with
  | .err e => ((false, some ("failed to get floatingip configmap: " ++ e)), s)
  | .missingKey => ((false, some "configmap has no key floatingips"), s)
  | .val v =>
    if v = s.lastFIPConf then ((false, none), s)
    else
      match parse v with
      | none => ((false, some ("failed to unmarshal configmap val " ++ v)), s)
      | some conf =>
        let s1 : WatcherState := { s with lastFIPConf := v, cfgAttempts := s.cfgAttempts + 1 }
        match ConfigurePool s1.ipam conf with
        | .error _ => ((true, none), s1)
        | .ok ipam1 => ((true, none), { s1 with ipam := ipam1 })

/-- startupPollIntervalMs is the PollInfinite interval of the initial
configmap fetch loop in NewFloatingIPPlugin. -/
def startupPollIntervalMs : Nat := 100

/-- startupRun iterates the startup poll loop of NewFloatingIPPlugin
over a stream of fetch outcomes, giving the state before poll i. -/
def startupRun (parse : String → Option (List FloatingIPDef)) (fetches : Nat → FetchResult) :
    Nat → WatcherState
  | 0 => initWatcherState
  | i + 1 => (updateConfigMap parse (fetches i) (startupRun parse fetches i)).snd

/-- startupUpdated is the done condition PollInfinite checks after poll
i: the updated flag of updateConfigMap. -/
def startupUpdated (parse : String → Option (List FloatingIPDef)) (fetches : Nat → FetchResult)
    (i : Nat) : Bool :=
  (updateConfigMap parse (fetches i) (startupRun parse fetches i)).fst.fst

/-- startupCompletesAt says NewFloatingIPPlugin returns from its initial
poll loop right after poll i: poll i reports updated and no earlier poll
does. -/
def startupCompletesAt (parse : String → Option (List FloatingIPDef))
    (fetches : Nat → FetchResult) (i : Nat) : Prop :=
  startupUpdated parse fetches i = true ∧ ∀ j, j < i → startupUpdated parse fetches j = false

/-- admissibleReason lists the three rejection reasons Filter can write:
the unlabelled node reason, the two subnet resolution errors, and the no
floating ip left reason. -/
def admissibleReason (r : String) : Prop :=
  r = "FloatingIPPlugin:UnlabelNode" ∨ r = "FloatingIPPlugin:UnknowNode" ∨
    r = "FloatingIPPlugin:NoFIPConfigNode" ∨ r = "FloatingIPPlugin:NoFIPLeft"

/-- filterAccepts states, in the words of the claim, when Filter accepts
a candidate node: the node selector matches and the resolved subnet lies
in the queried subnet set. -/
def filterAccepts (st : IPAMState) (cache : NodeSubnetCache) (subnets : List Subnet)
    (node : Node) : Bool :=
  selMatches nodeSelector (labelsOf node.labels) &&
    (match (getNodeSubnet cache st node).fst with
     | .ok s => decide (s ∈ subnets)
     | .error _ => false)

/-- unbindSpecReleases states, in the words of the claim, when unbind is
expected to release: the invariant selector does not match, or the tapp
lookup failed, or the status entry at the pod instance index equals
killed case insensitively.  The empty lookup result is left out, being
the undefined case. -/
def unbindSpecReleases (pod : Pod) (tappsRes : Except String (List TApp)) : Bool :=
  if ¬ selMatches fipInvariantSeletor (labelsOf pod.labels) then true
  else
    match tappsRes with
    | .error _ => true
    | .ok tapps =>
      match tapps.head? with
      | none => false
      | some tapp =>
        tapp.statuses.any (fun p =>
          tappInstanceKilled p.snd &&
            decide (p.fst = (lookupKey TAppInstanceKey (labelsOf pod.labels)).getD ""))

/-- subnetA is a concrete subnet used by the concrete test states. -/
def subnetA : Subnet := { base := 0, size := 8 }

/-- demoNode is a labelled node with internal address 5, inside subnetA. -/
def demoNode : Node :=
  { name := "n1", labels := some [("network", "floatingip")],
    addresses := [{ typ := "InternalIP", ip := some 5 }] }

/-- demoNodeNoIP is a labelled node without any internal address. -/
def demoNodeNoIP : Node :=
  { name := "n2", labels := some [("network", "floatingip")], addresses := [] }

/-- demoState is a configured pool with the single free address 1. -/
def demoState : IPAMState :=
  { subnets := [subnetA], records := [{ ip := 1, subnet := subnetA, key := "" }], allocLog := [] }

/-- demoPod is a pod wanting a floating ip. -/
def demoPod : Pod :=
  { name := "p", ns := "ns", labels := some [("network", "FLOATINGIP")], phase := "", reason := "" }

/-- overlapDefs is a pool definition with overlapping ranges, rejected by
ConfigurePool with ConfigError. -/
def overlapDefs : List FloatingIPDef :=
  [{ subnet := subnetA, ips := [1, 2] }, { subnet := { base := 0, size := 8 }, ips := [2, 3] }]

/-- parseDemo is a concrete stand in for the JSON unmarshalling: the
string bad parses to the overlapping pool, everything else fails. -/
def parseDemo (s : String) : Option (List FloatingIPDef) :=
  if s = "bad" then some overlapDefs else none

/-- C10: a pod with a nil or empty label map is treated as not wanting a
floating IP at every entry point: Filter passes all nodes through with
an empty failed map and no error, and UpdatePod and RemovePod enqueue
nothing for release. -/
theorem C10_no_labels_pass_through (st : IPAMState) (cache : NodeSubnetCache)
    (nodes : List Node) (oldPod pod : Pod)
    (h : pod.labels = none ∨ pod.labels = some []) :
    Filter st cache pod nodes = (nodes, [], none) ∧
      UpdatePod oldPod pod = [] ∧ RemovePod pod = [] := by
  have hw : wantedObject pod = false := by
    rcases h with h | h <;>
      simp [wantedObject, h, selMatches, objectSelector, lookupKey]
  exact ⟨by simp [Filter, hw], by simp [UpdatePod, hw], by simp [RemovePod, hw]⟩

/-- podNoLabels is a pod with a nil label map. -/
def podNoLabels : Pod := { name := "p", ns := "ns", labels := none, phase := "", reason := "" }

/-- Witness for C10 at a concrete pod without labels. -/
theorem C10_no_labels_pass_through_witness :
    (podNoLabels.labels = none ∨ podNoLabels.labels = some []) ∧
      (Filter demoState [] podNoLabels [demoNode] = ([demoNode], [], none) ∧
        UpdatePod podNoLabels podNoLabels = [] ∧ RemovePod podNoLabels = []) :=
  ⟨Or.inl rfl,
    C10_no_labels_pass_through demoState [] [demoNode] podNoLabels podNoLabels (Or.inl rfl)⟩

/-- C9: for a pod matching the invariant selector whose tapp lookup
returns an empty list without error, unbind reaches the out of bounds
branch for the index zero access instead of falling through to a
release. -/
theorem C9_empty_tapps_out_of_bounds (st : IPAMState) (pod : Pod)
    (h : selMatches fipInvariantSeletor (labelsOf pod.labels) = true) :
    unbind st pod (.ok []) = (.indexOutOfBounds, st) := by
  simp [unbind, h]

/-- podInvariant is a pod matching the invariant selector, carrying
instance index 0. -/
def podInvariant : Pod :=
  { name := "p", ns := "ns",
    labels := some [("floatingip", "invariant"), (TAppInstanceKey, "0")],
    phase := "", reason := "" }

/-- Witness for C9 at a concrete invariant pod. -/
theorem C9_empty_tapps_out_of_bounds_witness :
    selMatches fipInvariantSeletor (labelsOf podInvariant.labels) = true ∧
      unbind demoState podInvariant (.ok []) = (.indexOutOfBounds, demoState) :=
  ⟨by decide, C9_empty_tapps_out_of_bounds demoState podInvariant (by decide)⟩

/-- C5: the node subnet cache is never populated.  At a concrete node
both lookup paths succeed, yet the cache they return still has no entry
for the node, so the next lookup is again a miss. -/
theorem C5_cache_never_populated :
    (getNodeSubnet [] demoState demoNode).fst = .ok subnetA ∧
      lookupKey demoNode.name (getNodeSubnet [] demoState demoNode).snd = none ∧
      (queryNodeSubnet [] demoState (.ok demoNode) demoNode.name).fst = (some subnetA, none) ∧
      lookupKey demoNode.name (queryNodeSubnet [] demoState (.ok demoNode) demoNode.name).snd =
        none :=
  ⟨rfl, rfl, rfl, rfl⟩

/-- C3: when the key owns nothing and subnet resolution fails, the
resolution error is discarded: queryNodeSubnet reports UnknowNode, yet
allocateIP still invokes AllocateInSubnet with the nil subnet, as the
log shows, and returns ErrNoEnoughIP instead of the resolution error. -/
theorem C3_resolution_error_discarded :
    (queryNodeSubnet [] demoState (.ok demoNodeNoIP) "n2").fst =
        (none, some "FloatingIPPlugin:UnknowNode") ∧
      (allocateIP demoState [] (.ok demoNodeNoIP) "ns_p" "n2").fst = .error "ErrNoEnoughIP" ∧
      (allocateIP demoState [] (.ok demoNodeNoIP) "ns_p" "n2").snd.allocLog = [("ns_p", none)] :=
  ⟨rfl, rfl, rfl⟩

/-- C6 counterexample: a poll fetching the value bad parses it, records
it in lastFIPConf, attempts ConfigurePool once and fails; the next poll
observing the same value returns unchanged and does not attempt
ConfigurePool again, contrary to the claim. -/
theorem C6_counterexample :
    updateConfigMap parseDemo (.val "bad") initWatcherState =
        ((true, none), { lastFIPConf := "bad", ipam := emptyIPAM, cfgAttempts := 1 }) ∧
      updateConfigMap parseDemo (.val "bad")
          { lastFIPConf := "bad", ipam := emptyIPAM, cfgAttempts := 1 } =
        ((false, none), { lastFIPConf := "bad", ipam := emptyIPAM, cfgAttempts := 1 }) :=
  ⟨rfl, rfl⟩

/-- C6 amended: ConfigurePool is attempted by a poll exactly when the
fetched value differs from lastFIPConf and parses; since a failed
attempt already recorded the value, a later poll seeing the same value
skips ConfigurePool, and only a changed value triggers a new attempt. -/
theorem C6_retry_only_on_change (parse : String → Option (List FloatingIPDef))
    (v : String) (s : WatcherState) :
    ((updateConfigMap parse (.val v) s).snd).cfgAttempts =
      if v ≠ s.lastFIPConf ∧ (parse v).isSome = true then s.cfgAttempts + 1
      else s.cfgAttempts := by
  by_cases hv : v = s.lastFIPConf
  · simp [updateConfigMap, hv]
  · rcases hp : parse v with _ | conf
    · simp [updateConfigMap, hv, hp]
    · rcases hc : ConfigurePool s.ipam conf with e | ipam1 <;>
        simp [updateConfigMap, hv, hp, hc]

/-- C8 counterexample: with every fetch returning the value bad, the
startup loop completes right after poll zero, ConfigurePool was
attempted once and failed, and the pool is still unconfigured: startup
completes without the pool being applied, contrary to the claim. -/
theorem C8_counterexample :
    startupCompletesAt parseDemo (fun _ => .val "bad") 0 ∧
      (startupRun parseDemo (fun _ => .val "bad") 1).cfgAttempts = 1 ∧
      (startupRun parseDemo (fun _ => .val "bad") 1).ipam = emptyIPAM :=
  ⟨⟨rfl, fun j hj => absurd hj (Nat.not_lt_zero j)⟩, rfl, rfl⟩

/-- C8 amended: plugin construction polls every 100 ms and completes at
the first poll whose fetch returns a parseable value different from the
recorded one; applying it through ConfigurePool may still fail, so
completion does not imply the pool was applied. -/
theorem C8_startup_completion (parse : String → Option (List FloatingIPDef))
    (fetches : Nat → FetchResult) (i : Nat) :
    (startupUpdated parse fetches i = true ↔
      ∃ v conf, fetches i = .val v ∧ v ≠ (startupRun parse fetches i).lastFIPConf ∧
        parse v = some conf) ∧
    startupPollIntervalMs = 100 := by
  refine ⟨?_, rfl⟩
  unfold startupUpdated
  rcases hf : fetches i with e | _ | v
  · simp [updateConfigMap]
  · simp [updateConfigMap]
  · by_cases hv : v = (startupRun parse fetches i).lastFIPConf
    · simp [updateConfigMap, hv]
    · rcases hp : parse v with _ | conf
      · simp [updateConfigMap, hv, hp]
      · rcases hc : ConfigurePool (startupRun parse fetches i).ipam conf with e | ipam1 <;>
          simp [updateConfigMap, hv, hp, hc]

/-- C4: when every merge patch attempt within the retry budget of 300 ms
steps over 20 s fails, Bind returns an error, and the state it leaves
behind is exactly the state the allocation committed: nothing is
released or rolled back. -/
theorem C4_patch_failure_no_rollback (st st1 : IPAMState) (cache : NodeSubnetCache)
    (fetched : Except String Node) (patchOk : Nat → Bool) (args : BindArgs)
    (a : List (String × String))
    (h1 : allocateIP st cache fetched (fmtKey args.podName args.podNamespace) args.nodeName =
      (.ok a, st1))
    (h2 : ∀ i, patchOk i = false) :
    Bind st cache fetched patchOk args =
      (.error ("failed to update pod " ++ fmtKey args.podName args.podNamespace), st1) ∧
    bindPatchIntervalMs = 300 ∧ bindPatchTimeoutMs = 20000 := by
  have hany : (List.range bindPatchAttempts).any patchOk = false := by
    simp only [List.any_eq_false]
    exact fun i _ => by simp [h2 i]
  refine ⟨?_, rfl, rfl⟩
  simp [Bind, h1, hany]

/-- demoStateAllocated is demoState after address 1 was claimed for the
key ns_p through a node in subnetA. -/
def demoStateAllocated : IPAMState :=
  { subnets := [subnetA], records := [{ ip := 1, subnet := subnetA, key := "ns_p" }],
    allocLog := [("ns_p", some subnetA)] }

/-- demoRecordAllocated is the record allocateIP commits in the demo. -/
def demoRecordAllocated : Record := { ip := 1, subnet := subnetA, key := "ns_p" }

/-- Witness for C4 at a concrete allocation whose patches all fail. -/
theorem C4_patch_failure_no_rollback_witness :
    (allocateIP demoState [] (.ok demoNode) (fmtKey "p" "ns") "n1" =
        (.ok (bindMap demoRecordAllocated), demoStateAllocated)) ∧
      (∀ i : Nat, (fun _ : Nat => false) i = false) ∧
      (Bind demoState [] (.ok demoNode) (fun _ => false) ⟨"p", "ns", "n1"⟩ =
          (.error ("failed to update pod " ++ fmtKey "p" "ns"), demoStateAllocated) ∧
        bindPatchIntervalMs = 300 ∧ bindPatchTimeoutMs = 20000) :=
  ⟨rfl, fun _ => rfl,
    C4_patch_failure_no_rollback demoState demoStateAllocated [] (.ok demoNode)
      (fun _ => false) ⟨"p", "ns", "n1"⟩ (bindMap demoRecordAllocated) rfl
      (fun _ => rfl)⟩

/-- C2: allocateIP, the allocation step of Bind, is idempotent per key.
From any successful call, a second call for the same key returns the
same annotation and leaves the state untouched, because it observes the
committed record; and when the key already owned a record, the first
call itself reused it without touching the state. -/
theorem C2_allocate_idempotent (st st1 : IPAMState) (cache cache2 : NodeSubnetCache)
    (fetched fetched2 : Except String Node) (key nodeName nodeName2 : String)
    (a : List (String × String))
    (h : allocateIP st cache fetched key nodeName = (.ok a, st1)) :
    allocateIP st1 cache2 fetched2 key nodeName2 = (.ok a, st1) ∧
      ∀ info, QueryFirst st key = some info → st1 = st ∧ a = bindMap info := by
  rcases hq : QueryFirst st key with _ | info
  · simp only [allocateIP, hq] at h
    rcases halloc : (AllocateInSubnet st key
        ((queryNodeSubnet cache st fetched nodeName).fst).fst).fst with e | ip
    · rw [halloc] at h
      exact absurd h (by simp)
    · rw [halloc] at h
      rcases hq2 : QueryFirst (AllocateInSubnet st key
          ((queryNodeSubnet cache st fetched nodeName).fst).fst).snd key with _ | info
      · rw [hq2] at h
        exact absurd h (by simp)
      · rw [hq2] at h
        have ha : a = bindMap info := by
          have := congrArg Prod.fst h
          simpa using this.symm
        have hst : st1 = (AllocateInSubnet st key
            ((queryNodeSubnet cache st fetched nodeName).fst).fst).snd := by
          have := congrArg Prod.snd h
          simpa using this.symm
        subst hst
        constructor
        · simp [allocateIP, hq2, ha]
        · intro info2 h2
          exact absurd h2 (by simp)
  · simp only [allocateIP, hq] at h
    have ha : a = bindMap info := by
      have := congrArg Prod.fst h
      simpa using this.symm
    have hst : st1 = st := by
      have := congrArg Prod.snd h
      simpa using this.symm
    subst hst
    constructor
    · simp [allocateIP, hq, ha]
    · intro info2 h2
      have h3 : info = info2 := by simpa using h2
      exact ⟨rfl, by rw [ha, h3]⟩

/-- Witness for C2 at a concrete first allocation. -/
theorem C2_allocate_idempotent_witness :
    (allocateIP demoState [] (.ok demoNode) "ns_p" "n1" =
        (.ok (bindMap demoRecordAllocated), demoStateAllocated)) ∧
      (allocateIP demoStateAllocated [] (.ok demoNode) "ns_p" "n1" =
          (.ok (bindMap demoRecordAllocated), demoStateAllocated) ∧
        ∀ info, QueryFirst demoState "ns_p" = some info →
          demoStateAllocated = demoState ∧ bindMap demoRecordAllocated = bindMap info) :=
  ⟨rfl,
    C2_allocate_idempotent demoState demoStateAllocated [] [] (.ok demoNode) (.ok demoNode)
      "ns_p" "n1" "n1" (bindMap demoRecordAllocated) rfl⟩

/-- filter_release_nil: after Release on a key, no record carries that
key any more, provided the key is not the empty free marker. -/
theorem filter_release_nil (key : String) (hk : key ≠ "") (l : List Record) :
    (l.map (fun r => if r.key ∈ [key] then { r with key := "" } else r)).filter
      (fun r => decide (r.key = key)) = [] := by
  simp only [List.filter_eq_nil_iff, List.mem_map, List.mem_singleton]
  rintro a ⟨r, hr, rfl⟩
  by_cases hm : r.key = key
  · simp [hm]
    exact Ne.symm hk
  · simp [hm]

/-- queryFirst_releasePodIP: the release path leaves no record owned by
the key, whether or not the key owned one before. -/
theorem queryFirst_releasePodIP (st : IPAMState) (key : String) (hk : key ≠ "") :
    QueryFirst (releasePodIP st key) key = none := by
  unfold releasePodIP
  rcases hq : QueryFirst st key with _ | r
  · exact hq
  · show QueryFirst (Release st [key]) key = none
    unfold QueryFirst Release
    simp only []
    rw [filter_release_nil key hk st.records]
    rfl

/-- keyInDB_ne_empty: the owner key always contains the underscore
separator, hence is never the empty free marker. -/
theorem keyInDB_ne_empty (pod : Pod) : keyInDB pod ≠ "" := by
  intro h
  have hlen := congrArg String.length h
  have h1 : String.length "_" = 1 := rfl
  simp [keyInDB, String.length_append, h1] at hlen

/-- C7: the release decision of unbind matches the claim: release when
the invariant selector does not match or the tapp lookup fails or the
status entry at the pod instance index is killed case insensitively;
retain otherwise.  When it releases, the key owns no IP afterwards; when
it retains, the allocation is untouched.  The tapp list is assumed non
empty when the lookup succeeds, the empty case being claim C9. -/
theorem C7_unbind_release_decision (st : IPAMState) (pod : Pod)
    (tappsRes : Except String (List TApp))
    (h : ∀ l, tappsRes = .ok l → l ≠ []) :
    (unbind st pod tappsRes).fst =
      (if unbindSpecReleases pod tappsRes then .releaseInvoked else .retained) ∧
    QueryFirst (unbind st pod tappsRes).snd (keyInDB pod) =
      (if unbindSpecReleases pod tappsRes then none else QueryFirst st (keyInDB pod)) := by
  have hrel := queryFirst_releasePodIP st (keyInDB pod) (keyInDB_ne_empty pod)
  by_cases hm : selMatches fipInvariantSeletor (labelsOf pod.labels) = true
  · rcases tappsRes with e | l
    · constructor <;> simp [unbind, unbindSpecReleases, hm, hrel]
    · rcases l with _ | ⟨t, ts⟩
      · exact absurd rfl (h [] rfl)
      · by_cases hk : t.statuses.any (fun p =>
            tappInstanceKilled p.snd &&
              decide (p.fst = (lookupKey TAppInstanceKey (labelsOf pod.labels)).getD "")) = true
        · constructor <;> simp [unbind, unbindSpecReleases, hm, hk, hrel]
        · constructor <;> simp [unbind, unbindSpecReleases, hm, hk]
  · constructor <;> simp [unbind, unbindSpecReleases, hm, hrel]

/-- demoTApp is a tapp whose instance 0 is killed. -/
def demoTApp : TApp := { statuses := [("0", "killed")] }

/-- demoInvState owns address 1 for the key of podInvariant. -/
def demoInvState : IPAMState :=
  { subnets := [subnetA], records := [{ ip := 1, subnet := subnetA, key := "ns_p" }],
    allocLog := [] }

/-- Witness for C7 at a concrete invariant pod with a killed status. -/
theorem C7_unbind_release_decision_witness :
    (∀ l, (Except.ok [demoTApp] : Except String (List TApp)) = .ok l → l ≠ []) ∧
      ((unbind demoInvState podInvariant (.ok [demoTApp])).fst =
          (if unbindSpecReleases podInvariant (.ok [demoTApp]) then .releaseInvoked
           else .retained) ∧
        QueryFirst (unbind demoInvState podInvariant (.ok [demoTApp])).snd
            (keyInDB podInvariant) =
          (if unbindSpecReleases podInvariant (.ok [demoTApp]) then none
           else QueryFirst demoInvState (keyInDB podInvariant))) :=
  ⟨fun l hl => by cases hl; simp,
    C7_unbind_release_decision demoInvState podInvariant (.ok [demoTApp])
      (fun l hl => by cases hl; simp)⟩

/-- getNodeSubnet_error_cases: the only errors subnet resolution can
produce are the unknown node and the unconfigured node reasons. -/
theorem getNodeSubnet_error_cases (cache : NodeSubnetCache) (st : IPAMState) (node : Node)
    (e : String) :
    (getNodeSubnet cache st node).fst = .error e →
      e = "FloatingIPPlugin:UnknowNode" ∨ e = "FloatingIPPlugin:NoFIPConfigNode" := by
  intro h
  unfold getNodeSubnet at h
  split at h
  · simp at h
  · split at h
    · simp at h
      exact Or.inl h.symm
    · split at h
      · simp at h
      · simp at h
        exact Or.inr h.symm

/-- mem_failedInsert: an entry of the map after an insert is the
inserted pair or an entry of the old map. -/
theorem mem_failedInsert {k v : String} {m : FailedNodesMap} {p : String × String}
    (h : p ∈ failedInsert k v m) : p = (k, v) ∨ p ∈ m := by
  revert h
  unfold failedInsert
  rcases lookupKey k m with _ | w
  · intro h
    exact List.mem_cons.mp h
  · intro h
    exact Or.inr h

/-- lookupKey_failedInsert_self: after inserting a key the lookup for it
succeeds. -/
theorem lookupKey_failedInsert_self (k v : String) (m : FailedNodesMap) :
    (lookupKey k (failedInsert k v m)).isSome = true := by
  unfold failedInsert
  rcases h : lookupKey k m with _ | w
  · simp [lookupKey]
  · simp [h]

/-- lookupKey_failedInsert_mono: an insert never removes an entry. -/
theorem lookupKey_failedInsert_mono (k v a : String) (m : FailedNodesMap)
    (h : (lookupKey a m).isSome = true) :
    (lookupKey a (failedInsert k v m)).isSome = true := by
  unfold failedInsert
  rcases lookupKey k m with _ | w
  · by_cases hak : k = a
    · simp [lookupKey, hak]
    · simp [lookupKey, hak, h]
  · exact h

/-- lookupKey_mem: a successful lookup comes from an entry of the
list. -/
theorem lookupKey_mem {α : Type} (a : String) (r : α) (m : List (String × α))
    (h : lookupKey a m = some r) : (a, r) ∈ m := by
  induction m with
  | nil => simp [lookupKey] at h
  | cons p rest ih =>
    by_cases hp : p.fst = a
    · simp [lookupKey, hp] at h
      exact List.mem_cons.mpr (Or.inl (by cases p; simp_all))
    · simp [lookupKey, hp] at h
      exact List.mem_cons.mpr (Or.inr (ih h))

/-- failed_invariants_insert: inserting an admissible reason preserves
admissibility of every entry of the map. -/
theorem failed_invariants_insert (k v : String) (m : FailedNodesMap)
    (hv : admissibleReason v) (hm : ∀ p ∈ m, admissibleReason p.snd) :
    ∀ p ∈ failedInsert k v m, admissibleReason p.snd := by
  intro p hp
  rcases mem_failedInsert hp with h | h
  · rw [h]
    exact hv
  · exact hm p h

/-- filterLoop_fst: the accepted list of the filter loop is exactly the
nodes satisfying the acceptance predicate, in order. -/
theorem filterLoop_fst (st : IPAMState) (cache : NodeSubnetCache) (subnets : List Subnet)
    (nodes : List Node) :
    (filterLoop st cache subnets nodes).fst = nodes.filter (filterAccepts st cache subnets) := by
  induction nodes with
  | nil => rfl
  | cons n rest ih =>
    by_cases hm : selMatches nodeSelector (labelsOf n.labels) = true
    · rcases hg : (getNodeSubnet cache st n).fst with e | s
      · simp [filterLoop, List.filter_cons, filterAccepts, hm, hg, ih]
      · by_cases hs : s ∈ subnets
        · simp [filterLoop, List.filter_cons, filterAccepts, hm, hg, hs, ih]
        · simp [filterLoop, List.filter_cons, filterAccepts, hm, hg, hs, ih]
    · simp [filterLoop, List.filter_cons, filterAccepts, hm, ih]

/-- filterLoop_failed: every reason in the failed map is one of the
admissible reasons, and every unaccepted node of the input has an entry
in the failed map. -/
theorem filterLoop_failed (st : IPAMState) (cache : NodeSubnetCache) (subnets : List Subnet)
    (nodes : List Node) :
    (∀ p ∈ (filterLoop st cache subnets nodes).snd, admissibleReason p.snd) ∧
      ∀ n ∈ nodes, filterAccepts st cache subnets n = false →
        (lookupKey n.name (filterLoop st cache subnets nodes).snd).isSome = true := by
  induction nodes with
  | nil =>
    constructor
    · intro p hp
      simp [filterLoop] at hp
    · intro n hn
      simp at hn
  | cons n rest ih =>
    obtain ⟨ihv, ihl⟩ := ih
    by_cases hm : selMatches nodeSelector (labelsOf n.labels) = true
    · rcases hg : (getNodeSubnet cache st n).fst with e | s
      · have hsnd : (filterLoop st cache subnets (n :: rest)).snd =
            failedInsert n.name e (filterLoop st cache subnets rest).snd := by
          simp [filterLoop, hm, hg]
        have he : admissibleReason e := by
          rcases getNodeSubnet_error_cases cache st n e hg with h | h
          · exact Or.inr (Or.inl h)
          · exact Or.inr (Or.inr (Or.inl h))
        constructor
        · rw [hsnd]
          exact failed_invariants_insert n.name e _ he ihv
        · intro n2 hn2 hacc
          rw [hsnd]
          rcases List.mem_cons.mp hn2 with h | h
          · rw [h]
            exact lookupKey_failedInsert_self n.name e _
          · exact lookupKey_failedInsert_mono n.name e n2.name _ (ihl n2 h hacc)
      · by_cases hs : s ∈ subnets
        · have hsnd : (filterLoop st cache subnets (n :: rest)).snd =
              (filterLoop st cache subnets rest).snd := by
            simp [filterLoop, hm, hg, hs]
          constructor
          · rw [hsnd]
            exact ihv
          · intro n2 hn2 hacc
            rw [hsnd]
            rcases List.mem_cons.mp hn2 with h | h
            · exfalso
              rw [h] at hacc
              simp [filterAccepts, hm, hg, hs] at hacc
            · exact ihl n2 h hacc
        · have hsnd : (filterLoop st cache subnets (n :: rest)).snd =
              failedInsert n.name "FloatingIPPlugin:NoFIPLeft"
                (filterLoop st cache subnets rest).snd := by
            simp [filterLoop, hm, hg, hs]
          constructor
          · rw [hsnd]
            exact failed_invariants_insert _ _ _ (by simp [admissibleReason]) ihv
          · intro n2 hn2 hacc
            rw [hsnd]
            rcases List.mem_cons.mp hn2 with h | h
            · rw [h]
              exact lookupKey_failedInsert_self _ _ _
            · exact lookupKey_failedInsert_mono _ _ _ _ (ihl n2 h hacc)
    · have hsnd : (filterLoop st cache subnets (n :: rest)).snd =
          failedInsert n.name "FloatingIPPlugin:UnlabelNode"
            (filterLoop st cache subnets rest).snd := by
        simp [filterLoop, hm]
      constructor
      · rw [hsnd]
        exact failed_invariants_insert _ _ _ (by simp [admissibleReason]) ihv
      · intro n2 hn2 hacc
        rw [hsnd]
        rcases List.mem_cons.mp hn2 with h | h
        · rw [h]
          exact lookupKey_failedInsert_self _ _ _
        · exact lookupKey_failedInsert_mono _ _ _ _ (ihl n2 h hacc)

/-- C1: for a pod wanting a floating ip, the accepted set of Filter is
exactly the candidate nodes matching the node selector whose resolved
subnet lies in the queried subnet set, Filter reports no global error,
and every other candidate node appears in the failed map under the
unlabelled reason, a subnet resolution error or the no floating ip left
reason. -/
theorem C1_filter_partition (st : IPAMState) (cache : NodeSubnetCache) (pod : Pod)
    (nodes : List Node) (h : wantedObject pod = true) :
    (Filter st cache pod nodes).fst =
        nodes.filter (filterAccepts st cache (filterSubnets st (keyInDB pod))) ∧
      (Filter st cache pod nodes).snd.snd = none ∧
      ∀ n ∈ nodes, filterAccepts st cache (filterSubnets st (keyInDB pod)) n = false →
        ∃ r, lookupKey n.name (Filter st cache pod nodes).snd.fst = some r ∧
          admissibleReason r := by
  have hFil : Filter st cache pod nodes =
      ((filterLoop st cache (filterSubnets st (keyInDB pod)) nodes).fst,
        (filterLoop st cache (filterSubnets st (keyInDB pod)) nodes).snd, none) := by
    simp [Filter, h]
  obtain ⟨hv, hl⟩ := filterLoop_failed st cache (filterSubnets st (keyInDB pod)) nodes
  refine ⟨?_, ?_, ?_⟩
  · rw [hFil]
    exact filterLoop_fst st cache (filterSubnets st (keyInDB pod)) nodes
  · rw [hFil]
  · intro n hn hacc
    rw [hFil]
    have hsome := hl n hn hacc
    rcases ho : lookupKey n.name (filterLoop st cache (filterSubnets st (keyInDB pod)) nodes).snd
        with _ | r
    · rw [ho] at hsome
      simp at hsome
    · exact ⟨r, rfl, hv (n.name, r) (lookupKey_mem _ _ _ ho)⟩

/-- demoNodeUnlabel is a node without the floating ip capability
label. -/
def demoNodeUnlabel : Node := { name := "n3", labels := some [], addresses := [] }

/-- Witness for C1 at a concrete pod with one accepted and one rejected
node. -/
theorem C1_filter_partition_witness :
    wantedObject demoPod = true ∧
      ((Filter demoState [] demoPod [demoNode, demoNodeUnlabel]).fst =
          [demoNode, demoNodeUnlabel].filter
            (filterAccepts demoState [] (filterSubnets demoState (keyInDB demoPod))) ∧
        (Filter demoState [] demoPod [demoNode, demoNodeUnlabel]).snd.snd = none ∧
        ∀ n ∈ [demoNode, demoNodeUnlabel],
          filterAccepts demoState [] (filterSubnets demoState (keyInDB demoPod)) n = false →
            ∃ r, lookupKey n.name
                (Filter demoState [] demoPod [demoNode, demoNodeUnlabel]).snd.fst = some r ∧
              admissibleReason r) :=
  ⟨by decide,
    C1_filter_partition demoState [] demoPod [demoNode, demoNodeUnlabel] (by decide)⟩

end Galaxy
